import Mathlib

/-!
Verification of the asynchronous callback correlation subsystem and the
conversation state machine of the innokentiy-telegram-bot repository.

The definitions below are a shallow embedding of the Python sources:
`webhook_server.py` (pending-request registry, callback receiver, dispatcher,
waiter, sweep), `config.py` (the `BotStates` class and the limit constants),
`bot.py` (the rollback lookup table and the rollback handler's persisted-state
effect), `utils.py` (`NicheDetector.detect_niche`) and `post_system.py`
(answer validation, topic and post flows).  Time is measured in milliseconds
(the Python code uses seconds: `0.5` s poll interval = 500 ms, 5-minute sweep
cutoff = 300000 ms).  Python dicts are embedded as association lists with
key-unique insertion; dict membership and `dict.pop` are the corresponding
association-list operations.
-/

namespace InnokentiyBot

/-! ### Association-list operations standing in for Python dicts -/

/-- First binding of key `k` in the association list, mirroring `d[k]` /
`d.get(k)`. -/
def lookupKey {α : Type} (m : List (String × α)) (k : String) : Option α :=
  match m with
  | [] => none
  | (k', v) :: rest => if k' = k then some v else lookupKey rest k

/-- Removal of every binding of `k`, mirroring `d.pop(k, None)`. -/
def eraseKey {α : Type} (m : List (String × α)) (k : String) : List (String × α) :=
  m.filter (fun p => !(p.1 = k : Bool))

/-- Overwriting insertion, mirroring `d[k] = v`. -/
def insertKey {α : Type} (m : List (String × α)) (k : String) (v : α) :
    List (String × α) :=
  (k, v) :: eraseKey m k

theorem lookupKey_cons {α : Type} (a : String) (b : α) (rest : List (String × α))
    (k : String) :
    lookupKey ((a, b) :: rest) k = if a = k then some b else lookupKey rest k := rfl

theorem eraseKey_cons {α : Type} (a : String) (b : α) (rest : List (String × α))
    (k : String) :
    eraseKey ((a, b) :: rest) k =
      if a = k then eraseKey rest k else (a, b) :: eraseKey rest k := by
  by_cases h : a = k <;> simp [eraseKey, List.filter, h]

theorem lookupKey_eraseKey_self {α : Type} (m : List (String × α)) (k : String) :
    lookupKey (eraseKey m k) k = none := by
  induction m with
  | nil => rfl
  | cons p rest ih =>
    obtain ⟨a, b⟩ := p
    rw [eraseKey_cons]
    by_cases h : a = k
    · rw [if_pos h]; exact ih
    · rw [if_neg h, lookupKey_cons, if_neg h]; exact ih

theorem lookupKey_eraseKey_ne {α : Type} (m : List (String × α)) (k k' : String)
    (h : k' ≠ k) : lookupKey (eraseKey m k) k' = lookupKey m k' := by
  induction m with
  | nil => rfl
  | cons p rest ih =>
    obtain ⟨a, b⟩ := p
    rw [eraseKey_cons]
    by_cases hp : a = k
    · have hak' : a ≠ k' := by rw [hp]; exact fun hc => h hc.symm
      rw [if_pos hp, lookupKey_cons, if_neg hak', ih]
    · rw [if_neg hp, lookupKey_cons, lookupKey_cons]
      by_cases hp' : a = k'
      · rw [if_pos hp', if_pos hp']
      · rw [if_neg hp', if_neg hp', ih]

theorem lookupKey_insertKey_self {α : Type} (m : List (String × α)) (k : String)
    (v : α) : lookupKey (insertKey m k v) k = some v := by
  simp [insertKey, lookupKey]

theorem lookupKey_insertKey_ne {α : Type} (m : List (String × α)) (k k' : String)
    (v : α) (h : k' ≠ k) : lookupKey (insertKey m k v) k' = lookupKey m k' := by
  simp only [insertKey, lookupKey_cons]
  rw [if_neg (fun hc => h hc.symm)]
  exact lookupKey_eraseKey_ne m k k' h

theorem lookupKey_mem {α : Type} {m : List (String × α)} {k : String} {v : α}
    (h : lookupKey m k = some v) : (k, v) ∈ m := by
  induction m with
  | nil => simp [lookupKey] at h
  | cons p rest ih =>
    obtain ⟨a, b⟩ := p
    rw [lookupKey_cons] at h
    by_cases hp : a = k
    · rw [if_pos hp] at h
      simp only [Option.some.injEq] at h
      rw [← hp, ← h]
      exact List.mem_cons_self (a, b) rest
    · rw [if_neg hp] at h
      exact List.mem_cons_of_mem (a, b) (ih h)

theorem lookupKey_eq_none_not_mem {α : Type} {m : List (String × α)} {k : String}
    (h : lookupKey m k = none) : ∀ p ∈ m, p.1 ≠ k := by
  induction m with
  | nil => intro p hp; simp at hp
  | cons q rest ih =>
    obtain ⟨a, b⟩ := q
    rw [lookupKey_cons] at h
    by_cases hq : a = k
    · rw [if_pos hq] at h; exact absurd h (by simp)
    · rw [if_neg hq] at h
      intro p hp
      rcases List.mem_cons.mp hp with rfl | hmem
      · exact hq
      · exact ih h p hmem

/-! ### Python string primitives

Embedded structurally over character lists so that concrete runs reduce
inside the kernel. -/

/-- Python `str.strip()`: drop whitespace from both ends. -/
def pyStrip (s : String) : String :=
  String.mk
    (((s.toList.dropWhile Char.isWhitespace).reverse.dropWhile
        Char.isWhitespace).reverse)

/-- Python `str.lower()`. -/
def pyLower (s : String) : String :=
  String.mk (s.toList.map Char.toLower)

/-- Accumulator loop for `pySplit`. -/
def pySplitAux : List Char → List Char → List String
  | [], acc => if acc.isEmpty then [] else [String.mk acc.reverse]
  | c :: cs, acc =>
    if c.isWhitespace then
      if acc.isEmpty then pySplitAux cs []
      else String.mk acc.reverse :: pySplitAux cs []
    else pySplitAux cs (c :: acc)

/-- Python `str.split()` with no argument: the maximal non-whitespace runs,
with no empty words. -/
def pySplit (s : String) : List String :=
  pySplitAux s.toList []

/-! ### Registry state (`webhook_server.py`, class `CallbackManager`)

`pending` embeds `self.pending_requests : Dict[str, Dict]`, whose values are
the dicts `{"timestamp": ..., "callback_type": ..., "status": ...}` created at
dispatch time (lines 48-52).  `handlers` embeds `self.callback_handlers`,
whose values are the result dicts `{"success": True, <payload key>: ...,
"timestamp": ...}` stored by the callback routes (lines 107-111 etc.). -/

/-- Value type of `pending_requests` entries (webhook_server.py lines 48-52). -/
structure PendingInfo where
  timestamp : Nat
  callback_type : String
  status : String
deriving Repr, DecidableEq

/-- Value type of `callback_handlers` entries: the buffered callback result.
`key` records which payload field the route stored (`niche`, `adapted_topic`
or `generated_post`); `value` is that field's (stripped) string. -/
structure CallbackPayload where
  success : Bool
  key : String
  value : String
  timestamp : Nat
deriving Repr, DecidableEq

/-- The two dicts owned by `CallbackManager` (webhook_server.py lines 22-24). -/
structure RegState where
  pending : List (String × PendingInfo)
  handlers : List (String × CallbackPayload)
deriving Repr, DecidableEq

/-- Fresh `CallbackManager` state (both dicts empty). -/
def RegState.empty : RegState := ⟨[], []⟩

/-- Overwrite of the `status` field of an existing pending entry, mirroring
`self.pending_requests[request_id]["status"] = "failed"`. -/
def setStatus (m : List (String × PendingInfo)) (k : String) (st : String) :
    List (String × PendingInfo) :=
  m.map (fun p => if p.1 = k then (p.1, { p.2 with status := st }) else p)

theorem setStatus_cons (a : String) (b : PendingInfo)
    (rest : List (String × PendingInfo)) (k st : String) :
    setStatus ((a, b) :: rest) k st =
      (if a = k then (a, { b with status := st }) else (a, b)) :: setStatus rest k st := by
  by_cases h : a = k <;> simp [setStatus, h]

theorem lookupKey_setStatus_self (m : List (String × PendingInfo)) (k st : String) :
    lookupKey (setStatus m k st) k =
      (lookupKey m k).map (fun i => { i with status := st }) := by
  induction m with
  | nil => rfl
  | cons p rest ih =>
    obtain ⟨a, b⟩ := p
    rw [setStatus_cons]
    by_cases hp : a = k
    · rw [if_pos hp, lookupKey_cons, lookupKey_cons, if_pos hp, if_pos hp]
      rfl
    · rw [if_neg hp, lookupKey_cons, lookupKey_cons, if_neg hp, if_neg hp, ih]

/-! ### Dispatcher (`CallbackManager.send_async_request`, lines 33-75)

The Python method generates a fresh UUID, records
`{"timestamp": now, "callback_type": ..., "status": "pending"}` and then
POSTs to the external engine; on a non-200 acceptance response or on a raised
exception it overwrites the entry's status with `"failed"` (lines 65-73).
The fresh UUID and the acceptance outcome of the outbound POST are external
inputs, so they are parameters (`request_id`, `accepted`). -/

def send_async_request (s : RegState) (request_id : String)
    (callback_type : String) (now : Nat) (accepted : Bool) : String × RegState :=
  let s1 : RegState :=
    { s with pending := insertKey s.pending request_id ⟨now, callback_type, "pending"⟩ }
  if accepted then
    (request_id, s1)
  else
    (request_id, { s1 with pending := setStatus s1.pending request_id "failed" })

/-! ### Waiter (`CallbackManager.wait_for_callback`, lines 77-95)

The Python loop is `while time.time() - start_time < timeout:` with a check of
`self.callback_handlers` followed by `await asyncio.sleep(0.5)`.  It is
embedded as a loop over the number of remaining iterations (`polls`), with
`elapsed` the milliseconds slept so far; the surrounding state is held fixed
(the claims proved below quantify over environments in which no callback task
runs during the wait, or in which the buffered result is already present).
`wait_for_callback` supplies enough fuel for every iteration the `while` loop
can perform, so the fuel-exhausted branch coincides with the timeout exit
(both return `None` after popping the pending entry, line 94). -/

def wait_loop (s : RegState) (request_id : String) (timeout : Nat) :
    Nat → Nat → Option CallbackPayload × RegState × Nat
  | 0, elapsed =>
    (none, { s with pending := eraseKey s.pending request_id }, elapsed)
  | polls + 1, elapsed =>
    if elapsed < timeout then
      match lookupKey s.handlers request_id with
      | some result =>
        (some result,
         ⟨eraseKey s.pending request_id, eraseKey s.handlers request_id⟩,
         elapsed)
      | none => wait_loop s request_id timeout polls (elapsed + 500)
    else
      (none, { s with pending := eraseKey s.pending request_id }, elapsed)

/-- `wait_for_callback(request_id, timeout)`: returns the popped result (or
`none` on timeout), the registry state afterwards, and the elapsed wait in
milliseconds. -/
def wait_for_callback (s : RegState) (request_id : String) (timeout : Nat) :
    Option CallbackPayload × RegState × Nat :=
  wait_loop s request_id timeout (timeout / 500 + 1) 0

/-! ### Callback receiver (`handle_niche_callback` / `handle_topic_callback` /
`handle_post_callback`, webhook_server.py lines 97-167)

The three route handlers are textually identical except for the payload field
they read (`niche`, `adapted_topic`, `generated_post`), so they are embedded
as instances of one parametric handler.  An inbound request whose JSON body
fails to parse (or whose field accesses raise) hits the handler's
`except Exception` clause, which answers HTTP 500 (lines 117-119); this is
embedded as the `none` body.  A parsed body carries `data.get('request_id')`
(absent key gives Python `None`, embedded as `none`) and
`data.get(<field>, '')` (absent key gives `''`). -/

/-- HTTP response of a callback route: the status code and the `status` field
of the JSON body (`"ok"` or `"error"`). -/
structure HttpResponse where
  statusCode : Nat
  body_status : String
deriving Repr, DecidableEq

/-- Parsed JSON body of an inbound callback POST. -/
structure ParsedBody where
  request_id : Option String
  field_value : String
deriving Repr, DecidableEq

/-- Shared body of the three callback route handlers.  The guard mirrors
`if request_id and request_id in self.pending_requests:` — Python truthiness
of the id (non-`None` and non-empty) plus dict membership. -/
def handleCallback (payloadKey : String) (body : Option ParsedBody) (now : Nat)
    (s : RegState) : HttpResponse × RegState :=
  match body with
  | none => (⟨500, "error"⟩, s)
  | some data =>
    match data.request_id with
    | none => (⟨400, "error"⟩, s)
    | some rid =>
      if rid ≠ "" ∧ (lookupKey s.pending rid).isSome then
        (⟨200, "ok"⟩,
         { s with handlers :=
            insertKey s.handlers rid ⟨true, payloadKey, pyStrip data.field_value, now⟩ })
      else
        (⟨400, "error"⟩, s)

/-- `POST /webhook/callback/niche` (lines 97-119). -/
def handle_niche_callback : Option ParsedBody → Nat → RegState → HttpResponse × RegState :=
  handleCallback "niche"

/-- `POST /webhook/callback/topic` (lines 121-143). -/
def handle_topic_callback : Option ParsedBody → Nat → RegState → HttpResponse × RegState :=
  handleCallback "adapted_topic"

/-- `POST /webhook/callback/post` (lines 145-167). -/
def handle_post_callback : Option ParsedBody → Nat → RegState → HttpResponse × RegState :=
  handleCallback "generated_post"

/-! ### Sweep (`CallbackManager.cleanup_old_requests`, lines 213-226)

Collects the ids of pending entries whose timestamp is older than
`now - 5 minutes` and pops each collected id from both dicts.  Note that the
old-id list is computed from `pending_requests` only: a `callback_handlers`
entry whose id has no pending entry is never collected. -/

def cleanup_old_requests (now : Nat) (s : RegState) : RegState :=
  let cutoff := now - 5 * 60 * 1000
  let old_requests :=
    (s.pending.filter (fun p => decide (p.2.timestamp < cutoff))).map Prod.fst
  { pending := s.pending.filter (fun p => !(decide (p.1 ∈ old_requests))),
    handlers := s.handlers.filter (fun h => !(decide (h.1 ∈ old_requests))) }

/-! ### Registry event system

The registry is mutated from exactly these places in the source: the
dispatcher (`send_async_request`), the inbound callback routes, the waiter's
pickup branch (lines 84-87: pop from `callback_handlers`, then from
`pending_requests`), the waiter's timeout path (line 94: pop from
`pending_requests` only), and the periodic sweep (`cleanup_old_requests`,
scheduled from main.py line 96).  Under the single cooperative event loop
these mutations interleave atomically, so a reachable registry state is a
fold of such events over the empty state. -/

inductive RegEvent where
  | dispatch (request_id callback_type : String) (now : Nat) (accepted : Bool)
  | callbackArrives (payloadKey : String) (body : Option ParsedBody) (now : Nat)
  | waiterPickup (request_id : String)
  | waiterTimeout (request_id : String)
  | sweep (now : Nat)
deriving Repr, DecidableEq

def stepEvent (s : RegState) (e : RegEvent) : RegState :=
  match e with
  | .dispatch rid ct now acc => (send_async_request s rid ct now acc).2
  | .callbackArrives key body now => (handleCallback key body now s).2
  | .waiterPickup rid =>
    match lookupKey s.handlers rid with
    | some _ => ⟨eraseKey s.pending rid, eraseKey s.handlers rid⟩
    | none => s
  | .waiterTimeout rid => { s with pending := eraseKey s.pending rid }
  | .sweep now => cleanup_old_requests now s

/-- Registry state reached by a sequence of events from a fresh manager. -/
def runEvents (es : List RegEvent) : RegState :=
  es.foldl stepEvent RegState.empty

/-! ### Constants from `config.py` -/

/-- config.py line 83. -/
def WEEKLY_POST_LIMIT : Nat := 10

/-- config.py line 82.  Defined in the source but referenced by no code path:
`validate_user_answer` no longer performs a minimum-word-count check. -/
def MIN_POST_ANSWER_WORDS : Nat := 10

/-- The class attributes of `BotStates` (config.py lines 52-60), as the
attribute-name-to-value binding that Python attribute lookup consults.  Note
that neither `WAITING_POST_GOAL` nor `BLOCKED` is among them. -/
def botStatesMembers : List (String × String) :=
  [("WAITING_EMAIL", "waiting_email"),
   ("EMAIL_VERIFIED", "email_verified"),
   ("WAITING_NICHE_DESCRIPTION", "waiting_niche_description"),
   ("WAITING_NICHE_CONFIRMATION", "waiting_niche_confirmation"),
   ("NICHE_CONFIRMED", "niche_confirmed"),
   ("REGISTERED", "registered"),
   ("WAITING_POST_ANSWER", "waiting_post_answer"),
   ("POST_GENERATED", "post_generated")]

/-- Python attribute access `BotStates.<attr>`: `some` the value when the
attribute is defined, `none` for the `AttributeError` raised otherwise. -/
def getattrBotStates (attr : String) : Option String :=
  lookupKey botStatesMembers attr

/-! ### Rollback controller (`bot.py`)

`TelegramBot.get_previous_state` (bot.py lines 84-105) builds the dict
`state_flow` inside the function body, so every listed attribute access is
evaluated on every call; an undefined attribute raises `AttributeError` at
that point, embedded as `none`. -/

/-- The `state_flow` dict literal of bot.py lines 96-103, with each
`BotStates.<attr>` access evaluated in order. -/
def state_flow : Option (List (String × String)) := do
  let ev ← getattrBotStates "EMAIL_VERIFIED"
  let we ← getattrBotStates "WAITING_EMAIL"
  let wnd ← getattrBotStates "WAITING_NICHE_DESCRIPTION"
  let wnc ← getattrBotStates "WAITING_NICHE_CONFIRMATION"
  let reg ← getattrBotStates "REGISTERED"
  let wpg ← getattrBotStates "WAITING_POST_GOAL"
  let wpa ← getattrBotStates "WAITING_POST_ANSWER"
  let pg ← getattrBotStates "POST_GENERATED"
  pure [(ev, we), (wnd, ev), (wnc, wnd), (reg, wnc), (wpg, reg), (wpa, wpg), (pg, wpa)]

/-- `get_previous_state(current_state)` (bot.py lines 84-105):
`state_flow.get(current_state, current_state)` once the dict is built, `none`
for the `AttributeError` raised while building it. -/
def get_previous_state (current_state : String) : Option String :=
  state_flow.map (fun flow => (lookupKey flow current_state).getD current_state)

/-- Net effect of `rollback_to_previous_state` (bot.py lines 107-219) on the
persisted user state.  The method computes `get_previous_state` first; an
exception anywhere inside the `try` lands in the `except` clause (lines
216-219), which only shows the main menu, so the states written before the
exception stand.  When the previous state differs from the current one it is
written (lines 133-135); the prompt branch for
`previous_state == WAITING_NICHE_CONFIRMATION` then overwrites the state with
`WAITING_NICHE_DESCRIPTION` (lines 159-163), and the branch for
`previous_state == WAITING_POST_ANSWER` with content data attempts to write
`BotStates.WAITING_POST_GOAL` (lines 183-190), an undefined attribute, so
that second write raises and the first write stands. -/
def rollback_state_effect (current_state : String) (has_content_data : Bool) :
    String :=
  match get_previous_state current_state with
  | none => current_state
  | some previous_state =>
    if previous_state = current_state then
      current_state
    else if previous_state = "waiting_niche_confirmation" then
      "waiting_niche_description"
    else if previous_state = "waiting_post_answer" then
      (if has_content_data then
        (getattrBotStates "WAITING_POST_GOAL").getD previous_state
       else previous_state)
    else
      previous_state

/-- Persisted-state effect of `handle_post_answer` (bot.py lines 1564-1596)
after `process_post_generation` returns: success writes
`BotStates.POST_GENERATED`, failure writes back `BotStates.WAITING_POST_ANSWER`
(the state the user was already in). -/
def handle_post_answer_state_update (success : Bool) : String :=
  if success then "post_generated" else "waiting_post_answer"

/-! ### Niche detection (`utils.py`, class `NicheDetector`, lines 122-183)

`detect_niche(description)` performs one synchronous `requests.post` to the
niche webhook with `timeout=180` and reads the niche out of the HTTP
response body itself.  It touches neither `CallbackManager` dict and
registers nothing; the external engine's response is its only input. -/

/-- Outcome of the synchronous `requests.post` in `detect_niche`: a raised
timeout, another request exception, or a response with a status code and a
JSON body (`none` for a body that fails to parse, utils.py lines 168-170). -/
inductive NicheHttpResult where
  | timeoutRaised
  | requestError
  | response (status : Nat) (json : Option (List (String × String)))
deriving Repr, DecidableEq

/-- `NicheDetector.detect_niche` (utils.py lines 126-183). -/
def detect_niche (r : NicheHttpResult) : Option String :=
  match r with
  | .timeoutRaised => none
  | .requestError => none
  | .response status json =>
    if status = 200 then
      match json with
      | some result =>
        let niche := pyStrip ((lookupKey result "niche").getD "")
        if niche ≠ "" then some niche else none
      | none => none
    else none

/-- Interaction of `handle_niche_description` (bot.py lines 492-544) with the
callback registry: the niche is obtained by `await niche_detector.detect_niche(text)`
alone, so the registry state is passed through untouched and no dispatch
through `send_async_request` occurs (dispatch count 0). -/
def handle_niche_description_flow (r : NicheHttpResult) (s : RegState) :
    Option String × RegState × Nat :=
  (detect_niche r, s, 0)

/-! ### Text utilities used by the post system -/

/-- Apostrophe character, written without a quote-delimited literal. -/
def apostropheStr : String := String.singleton (Char.ofNat 39)

/-- `TextFormatter.escape_html` (utils.py lines 225-245). -/
def escape_html (text : String) : String :=
  ((((text.replace "&" "&amp;").replace "<" "&lt;").replace ">" "&gt;").replace
      "\"" "&quot;").replace apostropheStr "&#x27;"

/-- Tag names matched by the removal pattern of
`PostSystem._clean_html_for_telegram` (post_system.py line 156):
`div`, `span`, `h1`-`h6`, `ul`, `ol`, `li`, `br`. -/
def unsupportedTagNames : List String :=
  ["div", "span", "h1", "h2", "h3", "h4", "h5", "h6", "ul", "ol", "li", "br"]

/-- Consume characters up to and including the next `>`; `none` when no `>`
remains (in which case the regex cannot match). -/
def dropThroughGt : List Char → Option (List Char)
  | [] => none
  | c :: cs => if c = '>' then some cs else dropThroughGt cs

theorem dropThroughGt_length : ∀ {l r : List Char}, dropThroughGt l = some r →
    r.length < l.length := by
  intro l
  induction l with
  | nil => intro r h; exact absurd h (by simp [dropThroughGt])
  | cons c cs ih =>
    intro r h
    simp only [dropThroughGt] at h
    by_cases hc : c = '>'
    · rw [if_pos hc] at h
      simp only [Option.some.injEq] at h
      simp [← h]
    · rw [if_neg hc] at h
      exact Nat.lt_trans (ih h) (by simp)

/-- Match one of the listed tag names as a prefix of `cs`, returning the
remainder after the name. -/
def matchTagName (cs : List Char) : List String → Option (List Char)
  | [] => none
  | n :: ns =>
    if n.toList.isPrefixOf cs then some (cs.drop n.length)
    else matchTagName cs ns

theorem matchTagName_length : ∀ {ns : List String} {cs r : List Char},
    matchTagName cs ns = some r → r.length ≤ cs.length := by
  intro ns
  induction ns with
  | nil => intro cs r h; exact absurd h (by simp [matchTagName])
  | cons n ns ih =>
    intro cs r h
    simp only [matchTagName] at h
    by_cases hp : n.toList.isPrefixOf cs
    · rw [if_pos hp] at h
      simp only [Option.some.injEq] at h
      rw [← h]
      simpa using Nat.sub_le cs.length n.length
    · rw [if_neg hp] at h
      exact ih h

/-- Skip the optional `/` after the `<` of a candidate closing tag. -/
def dropLeadingSlash (cs : List Char) : List Char :=
  match cs with
  | c :: rest => if c = '/' then rest else c :: rest
  | [] => []

theorem dropLeadingSlash_length (cs : List Char) :
    (dropLeadingSlash cs).length ≤ cs.length := by
  cases cs with
  | nil => simp [dropLeadingSlash]
  | cons c rest =>
    by_cases hc : c = '/' <;> simp [dropLeadingSlash, hc]

/-- Removal of the unsupported tags, mirroring
`re.sub(r'</?(?:div|span|h[1-6]|ul|ol|li|br)[^>]*>', '', content)`:
at a `<`, an optional `/`, then one of the tag names, then anything up to the
closing `>`, is deleted; otherwise scanning resumes at the next character. -/
def stripUnsupportedTags : List Char → List Char
  | [] => []
  | c :: rest =>
    if c = '<' then
      match hm : matchTagName (dropLeadingSlash rest) unsupportedTagNames with
      | some afterName =>
        match hg : dropThroughGt afterName with
        | some afterTag => stripUnsupportedTags afterTag
        | none => c :: stripUnsupportedTags rest
      | none => c :: stripUnsupportedTags rest
    else
      c :: stripUnsupportedTags rest
termination_by cs => cs.length
decreasing_by
  all_goals
    first
      | (have h1 := matchTagName_length hm
         have h2 := dropThroughGt_length hg
         have h3 := dropLeadingSlash_length cs
         simp only [List.length_cons]
         omega)
      | (simp only [List.length_cons]; omega)

/-- Collapse of three-or-more consecutive newlines to exactly two, mirroring
`re.sub(r'\n{3,}', '\n\n', content)`. -/
def squeezeNewlines : List Char → List Char
  | '\n' :: '\n' :: '\n' :: rest => squeezeNewlines ('\n' :: '\n' :: rest)
  | c :: rest => c :: squeezeNewlines rest
  | [] => []
termination_by cs => cs.length
decreasing_by
  all_goals simp only [List.length_cons]
  all_goals omega

/-- `PostSystem._clean_html_for_telegram` (post_system.py lines 139-162). -/
def clean_html_for_telegram (content : String) : String :=
  let content := (((((content.replace "<p>" "").replace "</p>" "\n\n").replace
      "<strong>" "<b>").replace "</strong>" "</b>").replace "<em>" "<i>").replace
      "</em>" "</i>"
  let content := String.mk (stripUnsupportedTags content.toList)
  let content := String.mk (squeezeNewlines content.toList)
  pyStrip content

/-! ### Post system (`post_system.py` and `database.py`)

The file `messages.py` is imported by the sources but is not part of the
repository snapshot, so its user-facing message constants are modelled from
the spec as opaque distinct values (the spec names `WEEKLY_LIMIT_EXCEEDED`
with its two format arguments, `ERROR_ANSWER_TOO_SHORT`, and the
limit-exceeded / error semantics of the remaining constants); only their
identities, never their texts, are used by the code paths verified here. -/

/-- Modelled from the spec: the message constants of the missing `messages.py`
that the post-system code paths return, as opaque distinct values carrying
their format arguments. -/
inductive Msg where
  | WEEKLY_LIMIT_EXCEEDED (posts_generated posts_limit : Nat)
  | ERROR_NO_TOPICS_AVAILABLE
  | TOPIC_SUGGESTION (adapted_topic niche : String)
  | ERROR_TOPIC_TIMEOUT
  | ERROR_TOPIC_ADAPTATION
  | ERROR_GENERAL
  | ERROR_ANSWER_TOO_SHORT
  | ERROR_POST_TIMEOUT
  | ERROR_POST_GENERATION
  | GENERATED_POST (generated_content : String) (remaining_attempts : Nat)
deriving Repr, DecidableEq

/-- Result dict of `Database.check_user_post_limit` (database.py lines
327-365). -/
structure LimitInfo where
  can_generate : Bool
  remaining_posts : Nat
  posts_generated : Nat
  posts_limit : Nat
deriving Repr, DecidableEq

/-- `Database.check_user_post_limit` (database.py lines 327-365), as a
function of the user's `weekly_posts_count` column after the weekly reset. -/
def check_user_post_limit (weekly_posts_count : Nat) : LimitInfo :=
  { can_generate := weekly_posts_count < WEEKLY_POST_LIMIT,
    remaining_posts := WEEKLY_POST_LIMIT - weekly_posts_count,
    posts_generated := weekly_posts_count,
    posts_limit := WEEKLY_POST_LIMIT }

/-- Daily content record consumed by the post flows (`topic`, `question`,
and the `adapted_topic` slot filled in by `process_topic_request`). -/
structure ContentData where
  topic : String
  question : Option String
  adapted_topic : Option String
deriving Repr, DecidableEq

/-- `PostSystem.validate_user_answer` (post_system.py lines 280-303).  The
source carries the comment that the minimum-word-count restriction was
removed; the remaining checks are non-emptiness and the 50%-unique-words
spam check (`len(unique_words) < len(words) * 0.5`). -/
def validate_user_answer (answer : String) : Bool × String :=
  if pyStrip answer = "" then
    (false, "Ответ не может быть пустым")
  else
    let words := pySplit (pyStrip answer)
    let unique_words := (words.map pyLower).dedup
    if unique_words.length * 2 < words.length then
      (false, "Ответ содержит слишком много повторяющихся слов")
    else
      (true, "")

/-- `PostSystem.adapt_topic_for_niche` (post_system.py lines 164-217):
dispatches one asynchronous request of kind `topic` through the registry and
waits for its callback; all failures collapse to `none`.  Returns the adapted
topic, the resulting registry state, and the number of dispatch calls made. -/
def adapt_topic_for_niche (s : RegState) (request_id : String) (now : Nat)
    (accepted : Bool) (timeout : Nat) : Option String × RegState × Nat :=
  let d := send_async_request s request_id "topic" now accepted
  let w := wait_for_callback d.2 d.1 timeout
  match w.1 with
  | some result =>
    if result.success then
      let adapted_topic :=
        pyStrip (if result.key = "adapted_topic" then result.value else "")
      if adapted_topic ≠ "" then (some adapted_topic, w.2.1, 1)
      else (none, w.2.1, 1)
    else (none, w.2.1, 1)
  | none => (none, w.2.1, 1)

/-- `PostSystem.generate_post_content` (post_system.py lines 219-278): same
shape as topic adaptation with kind `post` and payload field
`generated_post`. -/
def generate_post_content (s : RegState) (request_id : String) (now : Nat)
    (accepted : Bool) (timeout : Nat) : Option String × RegState × Nat :=
  let d := send_async_request s request_id "post" now accepted
  let w := wait_for_callback d.2 d.1 timeout
  match w.1 with
  | some result =>
    if result.success then
      let generated_content :=
        pyStrip (if result.key = "generated_post" then result.value else "")
      if generated_content ≠ "" then (some generated_content, w.2.1, 1)
      else (none, w.2.1, 1)
    else (none, w.2.1, 1)
  | none => (none, w.2.1, 1)

/-- `PostSystem.process_topic_request` (post_system.py lines 305-374).
`limit` is `none` when `check_user_post_limit` raised (caught by the outer
`except`, line 372-374); `content` is the result of
`get_content_for_today`.  Returns the Python triple plus the registry state
and the dispatch count.  The `except N8NTimeoutError/N8NConnectionError`
branches are unreachable because `adapt_topic_for_niche` catches every
exception internally and returns `None` (lines 215-217). -/
def process_topic_request (limit : Option LimitInfo) (niche : String)
    (content : Option ContentData) (s : RegState) (request_id : String)
    (now : Nat) (accepted : Bool) (timeout : Nat) :
    (Bool × Msg × Option ContentData) × RegState × Nat :=
  match limit with
  | none => ((false, .ERROR_GENERAL, none), s, 0)
  | some limit_info =>
    if !limit_info.can_generate then
      ((false,
        .WEEKLY_LIMIT_EXCEEDED limit_info.posts_generated limit_info.posts_limit,
        none), s, 0)
    else
      match content with
      | none => ((false, .ERROR_NO_TOPICS_AVAILABLE, none), s, 0)
      | some content_data =>
        let a := adapt_topic_for_niche s request_id now accepted timeout
        match a.1 with
        | none => ((false, .ERROR_TOPIC_ADAPTATION, none), a.2.1, a.2.2)
        | some adapted_topic =>
          ((true,
            .TOPIC_SUGGESTION (escape_html adapted_topic) (escape_html niche),
            some { content_data with adapted_topic := some adapted_topic }),
           a.2.1, a.2.2)

/-- `PostSystem.process_post_generation` (post_system.py lines 376-478).
`limit` is `none` when `check_user_post_limit` raised (outer `except`, lines
476-478, returns `ERROR_POST_GENERATION`); `save_success` is the result of
`db.save_user_post`; `updated_limit` the re-read limit info used for the
remaining-attempts count.  Validation runs first (lines 393-396), the limit
check second (lines 398-407), and only then is the post dispatch issued. -/
def process_post_generation (limit : Option LimitInfo) (user_answer : String)
    (content_data : ContentData) (save_success : Bool)
    (updated_limit : LimitInfo) (s : RegState) (request_id : String)
    (now : Nat) (accepted : Bool) (timeout : Nat) :
    (Bool × Msg) × RegState × Nat :=
  let v := validate_user_answer user_answer
  if !v.1 then
    ((false, .ERROR_ANSWER_TOO_SHORT), s, 0)
  else
    match limit with
    | none => ((false, .ERROR_POST_GENERATION), s, 0)
    | some limit_info =>
      if !limit_info.can_generate then
        ((false,
          .WEEKLY_LIMIT_EXCEEDED limit_info.posts_generated limit_info.posts_limit),
         s, 0)
      else
        let g := generate_post_content s request_id now accepted timeout
        match g.1 with
        | none => ((false, .ERROR_POST_GENERATION), g.2.1, g.2.2)
        | some generated_content =>
          let generated_content := clean_html_for_telegram generated_content
          if !save_success then
            ((false, .ERROR_POST_GENERATION), g.2.1, g.2.2)
          else
            let remaining_attempts :=
              updated_limit.posts_limit - updated_limit.posts_generated
            ((true, .GENERATED_POST generated_content remaining_attempts),
             g.2.1, g.2.2)

/-! ### Concrete example states used by witnesses and counterexamples -/

/-- Registry holding one pending request whose dispatch was rejected (status
overwritten to `"failed"`), with no buffered callback result. -/
def exFailedState : RegState := ⟨[("r1", ⟨0, "topic", "failed"⟩)], []⟩

/-- Registry holding one pending request whose dispatch was accepted, with no
buffered callback result (the external engine never calls back). -/
def exPendingState : RegState := ⟨[("r2", ⟨0, "niche", "pending"⟩)], []⟩

/-- Daily content record used in concrete post-flow scenarios. -/
def exContent : ContentData := ⟨"Полезные привычки", some "Какой у вас опыт?", none⟩

/-- Limit info of a fresh user (no posts generated this week). -/
def exFreshLimit : LimitInfo := check_user_post_limit 0

/-- A successful synchronous response of the niche webhook: HTTP 200 with a
JSON body whose `niche` field is set. -/
def exNicheResponse : NicheHttpResult := .response 200 (some [("niche", "Маркетинг")])

/-- Event trace producing an orphaned result-buffer entry: a request is
dispatched and accepted, its callback arrives (and is buffered) while the
entry is still pending, and the waiter's timeout path then fires — having
performed its last buffer check before the callback landed — popping the
pending entry only (webhook_server.py line 94). -/
def exOrphanEvents : List RegEvent :=
  [.dispatch "r1" "niche" 0 true,
   .callbackArrives "niche" (some ⟨some "r1", "Маркетинг"⟩) 1000,
   .waiterTimeout "r1"]

/-- Registry with one young pending entry and one orphaned buffered result,
used to witness the sweep properties. -/
def exSweepState : RegState :=
  ⟨[("r7", ⟨400000, "topic", "pending"⟩)], [("r8", ⟨true, "niche", "x", 1⟩)]⟩

end InnokentiyBot

namespace InnokentiyBot

/-! ## Lemmas about the waiter loop -/

theorem wait_loop_no_handler (s : RegState) (request_id : String) (timeout : Nat)
    (hno : lookupKey s.handlers request_id = none) :
    ∀ polls elapsed, elapsed < timeout + 500 → timeout ≤ elapsed + 500 * polls →
      ∃ E, wait_loop s request_id timeout polls elapsed =
          (none, { s with pending := eraseKey s.pending request_id }, E) ∧
        timeout ≤ E ∧ E < timeout + 500 := by
  intro polls
  induction polls with
  | zero =>
    intro elapsed h1 h2
    exact ⟨elapsed, rfl, by omega, h1⟩
  | succ n ih =>
    intro elapsed h1 h2
    by_cases hlt : elapsed < timeout
    · have hstep : wait_loop s request_id timeout (n + 1) elapsed =
          wait_loop s request_id timeout n (elapsed + 500) := by
        simp only [wait_loop, if_pos hlt, hno]
      rw [hstep]
      exact ih (elapsed + 500) (by omega) (by omega)
    · have hstep : wait_loop s request_id timeout (n + 1) elapsed =
          (none, { s with pending := eraseKey s.pending request_id }, elapsed) := by
        simp only [wait_loop, if_neg hlt]
      exact ⟨elapsed, hstep, by omega, h1⟩

theorem wait_for_callback_no_handler (s : RegState) (request_id : String)
    (timeout : Nat) (hno : lookupKey s.handlers request_id = none) :
    ∃ E, wait_for_callback s request_id timeout =
        (none, { s with pending := eraseKey s.pending request_id }, E) ∧
      timeout ≤ E ∧ E < timeout + 500 := by
  refine wait_loop_no_handler s request_id timeout hno (timeout / 500 + 1) 0
    (by omega) ?_
  have := Nat.div_add_mod timeout 500
  have : timeout % 500 < 500 := Nat.mod_lt _ (by omega)
  omega

theorem wait_for_callback_found (s : RegState) (request_id : String)
    (timeout : Nat) (p : CallbackPayload)
    (hp : lookupKey s.handlers request_id = some p) (ht : 0 < timeout) :
    wait_for_callback s request_id timeout =
      (some p,
       ⟨eraseKey s.pending request_id, eraseKey s.handlers request_id⟩, 0) := by
  show wait_loop s request_id timeout (timeout / 500 + 1) 0 = _
  simp only [wait_loop, if_pos ht, hp]

/-! ## Claim C1 -/

/-- **C1** (counterexample).  The claim states that `wait_for_callback`
returns before the full timeout elapses once the dispatcher has marked the
entry `failed`.  On the concrete registry whose single pending entry has
status `"failed"` and whose result buffer is empty, the waiter runs the whole
2000 ms timeout (elapsed wait equals 2000, not less) and returns `None`: the
poll loop never consults the `status` field. -/
theorem c1_counterexample :
    lookupKey exFailedState.pending "r1" = some ⟨0, "topic", "failed"⟩ ∧
    wait_for_callback exFailedState "r1" 2000 = (none, ⟨[], []⟩, 2000) ∧
    ¬ ((wait_for_callback exFailedState "r1" 2000).2.2 < 2000) := by
  refine ⟨rfl, rfl, ?_⟩
  decide

/-- **C1** (amended): the waiter's poll loop exits only when a payload is
available for pickup or when the timeout elapses; for an entry marked
`failed` with no payload ever buffered, `wait_for_callback` waits out the
full timeout (it returns no earlier than `timeout` and within one 500 ms
poll interval past it), returns `None`, and removes the pending entry. -/
theorem c1_failed_entry_waits_out_timeout (s : RegState) (request_id : String)
    (timeout : Nat) (info : PendingInfo)
    (hpend : lookupKey s.pending request_id = some info)
    (hfailed : info.status = "failed")
    (hno : lookupKey s.handlers request_id = none) :
    (wait_for_callback s request_id timeout).1 = none ∧
    timeout ≤ (wait_for_callback s request_id timeout).2.2 ∧
    (wait_for_callback s request_id timeout).2.2 < timeout + 500 ∧
    lookupKey (wait_for_callback s request_id timeout).2.1.pending request_id = none := by
  obtain ⟨E, heq, h1, h2⟩ := wait_for_callback_no_handler s request_id timeout hno
  rw [heq]
  exact ⟨rfl, h1, h2, lookupKey_eraseKey_self s.pending request_id⟩

/-- Witness for `c1_failed_entry_waits_out_timeout` at the concrete failed
registry entry. -/
theorem c1_witness :
    (wait_for_callback exFailedState "r1" 2000).1 = none ∧
    2000 ≤ (wait_for_callback exFailedState "r1" 2000).2.2 ∧
    (wait_for_callback exFailedState "r1" 2000).2.2 < 2000 + 500 ∧
    lookupKey (wait_for_callback exFailedState "r1" 2000).2.1.pending "r1" = none :=
  c1_failed_entry_waits_out_timeout exFailedState "r1" 2000 ⟨0, "topic", "failed"⟩
    rfl rfl rfl

/-! ## Claim C2 -/

/-- **C2**: when no callback is ever delivered for a dispatched request,
`wait_for_callback` returns the empty result after at least the configured
timeout and before timeout plus one 500 ms poll interval; afterwards the
pending-request map no longer contains the entry (the timeout path itself
removes it), so a callback arriving later hits the unknown-id path and is
answered HTTP 400. -/
theorem c2_timeout_law (s : RegState) (request_id : String) (timeout : Nat)
    (hno : lookupKey s.handlers request_id = none) :
    (wait_for_callback s request_id timeout).1 = none ∧
    timeout ≤ (wait_for_callback s request_id timeout).2.2 ∧
    (wait_for_callback s request_id timeout).2.2 < timeout + 500 ∧
    lookupKey (wait_for_callback s request_id timeout).2.1.pending request_id = none ∧
    (∀ key body now, body.request_id = some request_id →
      (handleCallback key (some body) now
          (wait_for_callback s request_id timeout).2.1).1 = ⟨400, "error"⟩) := by
  obtain ⟨E, heq, h1, h2⟩ := wait_for_callback_no_handler s request_id timeout hno
  rw [heq]
  refine ⟨rfl, h1, h2, lookupKey_eraseKey_self s.pending request_id, ?_⟩
  intro key body now hb
  simp only [handleCallback, hb, lookupKey_eraseKey_self, Option.isSome_none,
    Bool.false_eq_true, and_false, if_false]

/-- Witness for `c2_timeout_law` at a concrete dispatched-but-never-answered
request with an 1800 ms timeout. -/
theorem c2_witness :
    (wait_for_callback exPendingState "r2" 1800).1 = none ∧
    1800 ≤ (wait_for_callback exPendingState "r2" 1800).2.2 ∧
    (wait_for_callback exPendingState "r2" 1800).2.2 < 1800 + 500 ∧
    lookupKey (wait_for_callback exPendingState "r2" 1800).2.1.pending "r2" = none ∧
    (handleCallback "niche" (some ⟨some "r2", "Маркетинг"⟩) 9999
        (wait_for_callback exPendingState "r2" 1800).2.1).1 = ⟨400, "error"⟩ := by
  obtain ⟨a, b, c, d, e⟩ := c2_timeout_law exPendingState "r2" 1800 rfl
  exact ⟨a, b, c, d, e "niche" ⟨some "r2", "Маркетинг"⟩ 9999 rfl⟩

/-! ## Claim C3 -/

/-- **C3** (counterexample).  The claim states that any non-ok inbound
callback POST receives HTTP 400 and no other error status; but a POST whose
JSON body fails to parse lands in the handler's `except` clause, which
answers HTTP 500 (webhook_server.py lines 117-119). -/
theorem c3_counterexample :
    (handle_niche_callback none 0 RegState.empty).1 = ⟨500, "error"⟩ ∧
    (handle_niche_callback none 0 RegState.empty).1.statusCode ≠ 400 := by
  exact ⟨rfl, by decide⟩

/-- **C3** (amended): on each callback route, a parsed POST whose request_id
is not live (absent, empty, or not in the pending-request map — unknown,
already consumed, or removed by timeout) is answered HTTP 400 with an error
body and mutates neither the pending-request map nor the result buffer;
HTTP 200 with status ok is returned exactly when the id is live; a request
whose body fails to parse is answered HTTP 500, also without mutation. -/
theorem c3_unknown_id_rejected (payloadKey : String) (s : RegState) (now : Nat) :
    (handleCallback payloadKey none now s = (⟨500, "error"⟩, s)) ∧
    (∀ body : ParsedBody, body.request_id = none →
      handleCallback payloadKey (some body) now s = (⟨400, "error"⟩, s)) ∧
    (∀ body : ParsedBody, ∀ rid, body.request_id = some rid →
      ¬ (rid ≠ "" ∧ (lookupKey s.pending rid).isSome = true) →
      handleCallback payloadKey (some body) now s = (⟨400, "error"⟩, s)) ∧
    (∀ body : ParsedBody, ∀ rid, body.request_id = some rid →
      ((handleCallback payloadKey (some body) now s).1 = ⟨200, "ok"⟩ ↔
        (rid ≠ "" ∧ (lookupKey s.pending rid).isSome = true))) := by
  refine ⟨rfl, ?_, ?_, ?_⟩
  · intro body hb
    simp only [handleCallback, hb]
  · intro body rid hb hdead
    simp only [handleCallback, hb]
    rw [if_neg hdead]
  · intro body rid hb
    simp only [handleCallback, hb]
    by_cases hlive : rid ≠ "" ∧ (lookupKey s.pending rid).isSome = true
    · rw [if_pos hlive]
      simpa using hlive
    · rw [if_neg hlive]
      constructor
      · intro h
        exact absurd h (by simp)
      · intro h
        exact absurd h hlive

/-- Witness for `c3_unknown_id_rejected`: an unknown request id on the niche
route against an empty registry is answered 400 without mutation. -/
theorem c3_witness :
    handle_niche_callback (some ⟨some "deadbeef", "Маркетинг"⟩) 5 RegState.empty =
      (⟨400, "error"⟩, RegState.empty) :=
  (c3_unknown_id_rejected "niche" RegState.empty 5).2.2.1
    ⟨some "deadbeef", "Маркетинг"⟩ "deadbeef" rfl (by decide)

/-! ## Claim C4 -/

/-- **C4** (code bug).  The claim states that every state named by the
spec's enum — including `waiting_post_goal` and `blocked` — is a defined
member of `BotStates` and that every state constant referenced by the state
machine and the rollback lookup table denotes a defined member.  In the code,
`BotStates` (config.py lines 52-60) defines neither `WAITING_POST_GOAL` nor
`BLOCKED`, yet `get_previous_state` (bot.py lines 96-103) and
`handle_write_post_request` (bot.py line 1423) reference
`BotStates.WAITING_POST_GOAL`; consequently every call of
`get_previous_state` — here evaluated at `"registered"` — raises
`AttributeError` while building the lookup table. -/
theorem c4_undefined_state_constants :
    get_previous_state "registered" = none ∧
    getattrBotStates "WAITING_POST_GOAL" = none ∧
    getattrBotStates "BLOCKED" = none ∧
    ((botStatesMembers.map Prod.snd).contains "waiting_post_goal") = false ∧
    ((botStatesMembers.map Prod.snd).contains "blocked") = false := by
  decide

/-! ## Claim C5 -/

/-- **C5** (counterexample).  The claim states that niche classification
dispatches an asynchronous request through the registry (creating a pending
entry of kind `niche`) and obtains the niche by waiting for the `kind=niche`
callback.  Running the niche-description flow on a concrete successful
synchronous response over an empty registry yields the classified niche with
the registry still empty and zero dispatch calls: no pending entry of any
kind exists afterwards. -/
theorem c5_counterexample :
    handle_niche_description_flow exNicheResponse RegState.empty =
      (some "Маркетинг", RegState.empty, 0) ∧
    (handle_niche_description_flow exNicheResponse RegState.empty).2.1.pending = [] ∧
    (handle_niche_description_flow exNicheResponse RegState.empty).2.2 = 0 := by
  refine ⟨?_, rfl, rfl⟩
  decide

/-- **C5** (amended): niche classification is the odd one out.
`detect_niche` obtains the niche synchronously from the webhook's own HTTP
response, passing the registry through untouched with zero dispatch calls,
whereas the topic-adaptation and post-generation flows dispatch through the
registry, creating a pending entry of their kind (status `pending` on
acceptance, `failed` on rejection). -/
theorem c5_niche_is_synchronous (r : NicheHttpResult) (s s' : RegState)
    (request_id : String) (now : Nat) (accepted : Bool) :
    handle_niche_description_flow r s = (detect_niche r, s, 0) ∧
    lookupKey (send_async_request s' request_id "topic" now accepted).2.pending
        request_id =
      some ⟨now, "topic", if accepted then "pending" else "failed"⟩ ∧
    lookupKey (send_async_request s' request_id "post" now accepted).2.pending
        request_id =
      some ⟨now, "post", if accepted then "pending" else "failed"⟩ := by
  refine ⟨rfl, ?_, ?_⟩ <;>
  · cases accepted with
    | true =>
      simp only [send_async_request, if_pos, if_true]
      rw [lookupKey_insertKey_self]
    | false =>
      simp only [send_async_request, if_false, Bool.false_eq_true]
      rw [lookupKey_setStatus_self, lookupKey_insertKey_self]
      rfl

/-! ## Claim C6 -/

/-- **C6** (counterexample).  The claim states that the first rollback call
from `waiting_niche_confirmation` moves the user to
`waiting_niche_description`.  In the code the first call leaves the persisted
state at `waiting_niche_confirmation`: building the rollback lookup table
raises `AttributeError` (undefined `BotStates.WAITING_POST_GOAL`) before any
state write, and `rollback_to_previous_state` swallows the exception. -/
theorem c6_counterexample :
    get_previous_state "waiting_niche_confirmation" = none ∧
    rollback_state_effect "waiting_niche_confirmation" false =
      "waiting_niche_confirmation" ∧
    "waiting_niche_confirmation" ≠ "waiting_niche_description" := by
  exact ⟨rfl, rfl, by decide⟩

/-- **C6** (amended): every rollback call is a no-op on the persisted state
(the lookup-table construction raises and the handler swallows the
exception), so two consecutive rollback calls from
`waiting_niche_confirmation` leave the user exactly there — in particular the
user never descends past `waiting_niche_description`. -/
theorem c6_rollback_is_noop (current : String) (b b' : Bool) :
    rollback_state_effect current b = current ∧
    rollback_state_effect (rollback_state_effect "waiting_niche_confirmation" b) b' =
      "waiting_niche_confirmation" := by
  have hflow : state_flow = none := rfl
  have hnoop : ∀ c : String, ∀ hc : Bool, rollback_state_effect c hc = c := by
    intro c hc
    simp only [rollback_state_effect, get_previous_state, hflow, Option.map_none']
  exact ⟨hnoop current b, by rw [hnoop _ b, hnoop _ b']⟩

/-! ## Claim C7 -/

/-- **C7** (counterexample).  The claim states that whenever the user is at
or over the weekly limit the operation short-circuits with a limit-exceeded
message.  In `process_post_generation` validation runs before the limit
check: at `posts_generated == posts_limit` with an empty answer, the
operation short-circuits with `ERROR_ANSWER_TOO_SHORT` instead (still with
zero dispatch calls). -/
theorem c7_counterexample :
    (check_user_post_limit 10).can_generate = false ∧
    (check_user_post_limit 10).posts_generated = (check_user_post_limit 10).posts_limit ∧
    process_post_generation (some (check_user_post_limit 10)) "" exContent true
        exFreshLimit RegState.empty "r3" 0 true 1000 =
      ((false, .ERROR_ANSWER_TOO_SHORT), RegState.empty, 0) ∧
    Msg.ERROR_ANSWER_TOO_SHORT ≠ Msg.WEEKLY_LIMIT_EXCEEDED 10 10 := by
  decide

/-- **C7** (amended): the weekly limit is checked before the dispatch of
both slow paths.  For a user at or over the limit, `process_topic_request`
returns the limit-exceeded message with the registry untouched and zero
dispatch calls; `process_post_generation` likewise makes zero dispatch calls
and leaves the registry untouched, and returns the limit-exceeded message
whenever the answer passes validation (an invalid answer is rejected first,
with `ERROR_ANSWER_TOO_SHORT` and still zero dispatch calls). -/
theorem c7_limit_check_precedes_dispatch (n : Nat) (hn : WEEKLY_POST_LIMIT ≤ n)
    (niche : String) (content : Option ContentData) (s : RegState)
    (request_id : String) (now : Nat) (accepted : Bool) (timeout : Nat)
    (answer : String) (cd : ContentData) (save_success : Bool) (ul : LimitInfo) :
    process_topic_request (some (check_user_post_limit n)) niche content s
        request_id now accepted timeout =
      ((false, .WEEKLY_LIMIT_EXCEEDED n WEEKLY_POST_LIMIT, none), s, 0) ∧
    (process_post_generation (some (check_user_post_limit n)) answer cd
        save_success ul s request_id now accepted timeout).2.1 = s ∧
    (process_post_generation (some (check_user_post_limit n)) answer cd
        save_success ul s request_id now accepted timeout).2.2 = 0 ∧
    ((validate_user_answer answer).1 = true →
      process_post_generation (some (check_user_post_limit n)) answer cd
          save_success ul s request_id now accepted timeout =
        ((false, .WEEKLY_LIMIT_EXCEEDED n WEEKLY_POST_LIMIT), s, 0)) := by
  have hdec : decide (n < WEEKLY_POST_LIMIT) = false := by
    rw [decide_eq_false_iff_not]
    omega
  have htopic : process_topic_request (some (check_user_post_limit n)) niche
      content s request_id now accepted timeout =
      ((false, .WEEKLY_LIMIT_EXCEEDED n WEEKLY_POST_LIMIT, none), s, 0) := by
    simp [process_topic_request, check_user_post_limit, hdec]
  have hpost_valid : (validate_user_answer answer).1 = true →
      process_post_generation (some (check_user_post_limit n)) answer cd
          save_success ul s request_id now accepted timeout =
        ((false, .WEEKLY_LIMIT_EXCEEDED n WEEKLY_POST_LIMIT), s, 0) := by
    intro hv
    simp [process_post_generation, hv, check_user_post_limit, hdec]
  have hpost_silent : (process_post_generation (some (check_user_post_limit n))
        answer cd save_success ul s request_id now accepted timeout).2.1 = s ∧
      (process_post_generation (some (check_user_post_limit n)) answer cd
        save_success ul s request_id now accepted timeout).2.2 = 0 := by
    cases hv : (validate_user_answer answer).1 with
    | true => rw [hpost_valid hv]; exact ⟨rfl, rfl⟩
    | false =>
      have heq : process_post_generation (some (check_user_post_limit n)) answer
          cd save_success ul s request_id now accepted timeout =
          ((false, .ERROR_ANSWER_TOO_SHORT), s, 0) := by
        simp [process_post_generation, hv]
      rw [heq]
      exact ⟨rfl, rfl⟩
  exact ⟨htopic, hpost_silent.1, hpost_silent.2, hpost_valid⟩

/-- Witness for `c7_limit_check_precedes_dispatch` at a user with 12 posts
this week (over the limit of 10) and a valid three-word answer. -/
theorem c7_witness :
    process_topic_request (some (check_user_post_limit 12)) "ниша"
        (some exContent) RegState.empty "r4" 0 true 1000 =
      ((false, .WEEKLY_LIMIT_EXCEEDED 12 WEEKLY_POST_LIMIT, none),
       RegState.empty, 0) ∧
    process_post_generation (some (check_user_post_limit 12)) "погода солнце море"
        exContent true exFreshLimit RegState.empty "r4" 0 true 1000 =
      ((false, .WEEKLY_LIMIT_EXCEEDED 12 WEEKLY_POST_LIMIT), RegState.empty, 0) := by
  obtain ⟨a, _, _, d⟩ := c7_limit_check_precedes_dispatch 12 (by decide) "ниша"
    (some exContent) RegState.empty "r4" 0 true 1000 "погода солнце море"
    exContent true exFreshLimit
  exact ⟨a, d (by decide)⟩

/-! ## Claim C8 -/

/-- **C8** (counterexample).  The claim states that every answer below the
minimum word count — in particular a 3-word answer — fails validation with
`ERROR_ANSWER_TOO_SHORT` and no dispatch.  The minimum-word-count check was
removed from `validate_user_answer` (post_system.py line 296): a 3-word
answer with distinct words passes validation, and `process_post_generation`
issues one external dispatch for it. -/
theorem c8_counterexample :
    (pySplit "погода солнце море").length = 3 ∧
    (pySplit "погода солнце море").length < MIN_POST_ANSWER_WORDS ∧
    validate_user_answer "погода солнце море" = (true, "") ∧
    (process_post_generation (some exFreshLimit) "погода солнце море" exContent
        true exFreshLimit RegState.empty "r5" 0 true 1000).2.2 = 1 ∧
    (process_post_generation (some exFreshLimit) "погода солнце море" exContent
        true exFreshLimit RegState.empty "r5" 0 true 1000).1.2 ≠
      Msg.ERROR_ANSWER_TOO_SHORT := by
  decide

/-- **C8** (amended): validation rejects only empty answers and answers with
fewer than 50% unique words; whenever it rejects, `process_post_generation`
returns `ERROR_ANSWER_TOO_SHORT` with the registry untouched and zero
dispatch calls, and the bot handler writes back `waiting_post_answer` (the
state the user was already in). -/
theorem c8_invalid_answer_short_circuit (answer : String)
    (hv : (validate_user_answer answer).1 = false)
    (limit : Option LimitInfo) (cd : ContentData) (save_success : Bool)
    (ul : LimitInfo) (s : RegState) (request_id : String) (now : Nat)
    (accepted : Bool) (timeout : Nat) :
    process_post_generation limit answer cd save_success ul s request_id now
        accepted timeout =
      ((false, .ERROR_ANSWER_TOO_SHORT), s, 0) ∧
    handle_post_answer_state_update false = "waiting_post_answer" := by
  constructor
  · simp only [process_post_generation, hv, Bool.not_false, if_true]
  · rfl

/-- Witness for `c8_invalid_answer_short_circuit` at a four-word answer with
one unique word (the 50%-unique-words check rejects it). -/
theorem c8_witness :
    process_post_generation (some exFreshLimit) "да да да да" exContent true
        exFreshLimit RegState.empty "r6" 0 true 1000 =
      ((false, .ERROR_ANSWER_TOO_SHORT), RegState.empty, 0) ∧
    handle_post_answer_state_update false = "waiting_post_answer" :=
  c8_invalid_answer_short_circuit "да да да да" (by decide) (some exFreshLimit)
    exContent true exFreshLimit RegState.empty "r6" 0 true 1000

/-! ## Claim C9 -/

theorem lookupKey_filter_of_key_pass {α : Type} (m : List (String × α))
    (q : String × α → Bool) (k : String) (hq : ∀ v : α, q (k, v) = true) :
    lookupKey (m.filter q) k = lookupKey m k := by
  induction m with
  | nil => rfl
  | cons p rest ih =>
    obtain ⟨a, b⟩ := p
    rw [List.filter_cons]
    by_cases ha : a = k
    · subst ha
      rw [if_pos (hq b), lookupKey_cons, lookupKey_cons, if_pos rfl, if_pos rfl]
    · by_cases hq' : q (a, b) = true
      · rw [if_pos hq', lookupKey_cons, lookupKey_cons, if_neg ha, if_neg ha]
        exact ih
      · rw [if_neg hq', lookupKey_cons, if_neg ha]
        exact ih

/-- **C9** (counterexample).  The claim states that after a sweep no entry
older than the 5-minute threshold remains anywhere in the registry, for every
reachable registry state.  The event trace `exOrphanEvents` — dispatch,
callback buffered while still pending, then the waiter's timeout path, which
pops only the pending map — reaches a state whose result buffer holds an
entry with timestamp 1000; sweeping at time 600000 (age 599000 ms, far past
the 300000 ms threshold) leaves that entry in place, because the sweep
collects ids from the pending map only. -/
theorem c9_counterexample :
    (runEvents exOrphanEvents).pending = [] ∧
    lookupKey (runEvents exOrphanEvents).handlers "r1" =
      some ⟨true, "niche", "Маркетинг", 1000⟩ ∧
    lookupKey (cleanup_old_requests 600000 (runEvents exOrphanEvents)).handlers "r1" =
      some ⟨true, "niche", "Маркетинг", 1000⟩ ∧
    600000 - 5 * 60 * 1000 > 1000 := by
  decide

/-- **C9** (amended): a sweep removes every pending entry older than the
threshold (no old entry survives in the pending-request map), and it removes
result-buffer entries only by the ids of those old pending entries — a
result-buffer entry whose id has no pending entry (orphaned by the waiter's
timeout path racing a late callback) is never touched by the sweep,
regardless of its age. -/
theorem c9_sweep_bounds_pending (now : Nat) (s : RegState) :
    (∀ rid info, lookupKey (cleanup_old_requests now s).pending rid = some info →
      ¬ (info.timestamp < now - 5 * 60 * 1000)) ∧
    (∀ rid, lookupKey s.pending rid = none →
      lookupKey (cleanup_old_requests now s).handlers rid =
        lookupKey s.handlers rid) := by
  constructor
  · intro rid info h hold
    simp only [cleanup_old_requests] at h
    have hmem := lookupKey_mem h
    rw [List.mem_filter] at hmem
    obtain ⟨hmem', hpass⟩ := hmem
    simp only [Bool.not_eq_true', decide_eq_false_iff_not] at hpass
    refine hpass (List.mem_map.mpr ⟨(rid, info), ?_, rfl⟩)
    exact List.mem_filter.mpr ⟨hmem', by simpa using hold⟩
  · intro rid hnone
    have hnotin : rid ∉ (s.pending.filter
        (fun p => decide (p.2.timestamp < now - 5 * 60 * 1000))).map Prod.fst := by
      intro hin
      obtain ⟨p, hp, hfst⟩ := List.mem_map.mp hin
      exact (lookupKey_eq_none_not_mem hnone p (List.mem_filter.mp hp).1) hfst
    simp only [cleanup_old_requests]
    exact lookupKey_filter_of_key_pass s.handlers _ rid (fun v => by
      simp [hnotin])

/-- Witness for `c9_sweep_bounds_pending` on a registry holding a young
pending entry and an orphaned buffered result. -/
theorem c9_witness :
    ¬ ((⟨400000, "topic", "pending"⟩ : PendingInfo).timestamp <
        600000 - 5 * 60 * 1000) ∧
    lookupKey (cleanup_old_requests 600000 exSweepState).handlers "r8" =
      lookupKey exSweepState.handlers "r8" := by
  refine ⟨?_, ?_⟩
  · exact (c9_sweep_bounds_pending 600000 exSweepState).1 "r7"
      ⟨400000, "topic", "pending"⟩ (by decide)
  · exact (c9_sweep_bounds_pending 600000 exSweepState).2 "r8" (by decide)

/-! ## Claim C10 -/

theorem callback_then_wait_delivers (s : RegState) (request_id : String)
    (payloadKey v : String) (now2 timeout : Nat) (hrid : request_id ≠ "")
    (hsome : (lookupKey s.pending request_id).isSome = true) (ht : 0 < timeout) :
    (handleCallback payloadKey (some ⟨some request_id, v⟩) now2 s).1 = ⟨200, "ok"⟩ ∧
    lookupKey (handleCallback payloadKey (some ⟨some request_id, v⟩) now2 s).2.handlers
        request_id = some ⟨true, payloadKey, pyStrip v, now2⟩ ∧
    (wait_for_callback
        (handleCallback payloadKey (some ⟨some request_id, v⟩) now2 s).2
        request_id timeout).1 = some ⟨true, payloadKey, pyStrip v, now2⟩ := by
  have hcond : request_id ≠ "" ∧ (lookupKey s.pending request_id).isSome = true :=
    ⟨hrid, hsome⟩
  have heq : handleCallback payloadKey (some ⟨some request_id, v⟩) now2 s =
      (⟨200, "ok"⟩,
       { s with handlers :=
          insertKey s.handlers request_id ⟨true, payloadKey, pyStrip v, now2⟩ }) := by
    simp only [handleCallback]
    rw [if_pos hcond]
  rw [heq]
  refine ⟨rfl, lookupKey_insertKey_self _ _ _, ?_⟩
  rw [wait_for_callback_found _ _ _ _ (lookupKey_insertKey_self _ _ _) ht]

/-- **C10**: a request whose outbound dispatch failed stays registered in the
pending-request map with status `failed`; a callback later delivered for its
id is still accepted with HTTP 200 and buffered with `success = true`, and
the polling waiter then delivers that payload — and the delivered payload is
exactly the one delivered when the dispatch was accepted, because the
`failed` mark is never consulted. -/
theorem c10_failed_dispatch_still_deliverable (s : RegState)
    (request_id payload : String) (now now2 timeout : Nat)
    (hrid : request_id ≠ "") (ht : 0 < timeout) :
    lookupKey (send_async_request s request_id "niche" now false).2.pending
        request_id = some ⟨now, "niche", "failed"⟩ ∧
    (handle_niche_callback (some ⟨some request_id, payload⟩) now2
        (send_async_request s request_id "niche" now false).2).1 = ⟨200, "ok"⟩ ∧
    lookupKey (handle_niche_callback (some ⟨some request_id, payload⟩) now2
        (send_async_request s request_id "niche" now false).2).2.handlers
        request_id = some ⟨true, "niche", pyStrip payload, now2⟩ ∧
    (wait_for_callback
        (handle_niche_callback (some ⟨some request_id, payload⟩) now2
          (send_async_request s request_id "niche" now false).2).2
        request_id timeout).1 = some ⟨true, "niche", pyStrip payload, now2⟩ ∧
    (wait_for_callback
        (handle_niche_callback (some ⟨some request_id, payload⟩) now2
          (send_async_request s request_id "niche" now false).2).2
        request_id timeout).1 =
      (wait_for_callback
        (handle_niche_callback (some ⟨some request_id, payload⟩) now2
          (send_async_request s request_id "niche" now true).2).2
        request_id timeout).1 := by
  have hfail : lookupKey (send_async_request s request_id "niche" now false).2.pending
      request_id = some ⟨now, "niche", "failed"⟩ := by
    simp only [send_async_request, Bool.false_eq_true, if_false]
    rw [lookupKey_setStatus_self, lookupKey_insertKey_self]
    rfl
  have hok : lookupKey (send_async_request s request_id "niche" now true).2.pending
      request_id = some ⟨now, "niche", "pending"⟩ := by
    simp only [send_async_request, if_true]
    exact lookupKey_insertKey_self _ _ _
  obtain ⟨d1, d2, d3⟩ := callback_then_wait_delivers
    (send_async_request s request_id "niche" now false).2 request_id "niche"
    payload now2 timeout hrid (by rw [hfail]; rfl) ht
  obtain ⟨_, _, d6⟩ := callback_then_wait_delivers
    (send_async_request s request_id "niche" now true).2 request_id "niche"
    payload now2 timeout hrid (by rw [hok]; rfl) ht
  exact ⟨hfail, d1, d2, d3, d3.trans d6.symm⟩

/-- Witness for `c10_failed_dispatch_still_deliverable` at a concrete failed
dispatch followed by a callback and a 700 ms wait. -/
theorem c10_witness :
    lookupKey (send_async_request RegState.empty "r9" "niche" 0 false).2.pending
        "r9" = some ⟨0, "niche", "failed"⟩ ∧
    (handle_niche_callback (some ⟨some "r9", "Маркетинг"⟩) 50
        (send_async_request RegState.empty "r9" "niche" 0 false).2).1 =
      ⟨200, "ok"⟩ ∧
    lookupKey (handle_niche_callback (some ⟨some "r9", "Маркетинг"⟩) 50
        (send_async_request RegState.empty "r9" "niche" 0 false).2).2.handlers
        "r9" = some ⟨true, "niche", pyStrip "Маркетинг", 50⟩ ∧
    (wait_for_callback
        (handle_niche_callback (some ⟨some "r9", "Маркетинг"⟩) 50
          (send_async_request RegState.empty "r9" "niche" 0 false).2).2
        "r9" 700).1 = some ⟨true, "niche", pyStrip "Маркетинг", 50⟩ ∧
    (wait_for_callback
        (handle_niche_callback (some ⟨some "r9", "Маркетинг"⟩) 50
          (send_async_request RegState.empty "r9" "niche" 0 false).2).2
        "r9" 700).1 =
      (wait_for_callback
        (handle_niche_callback (some ⟨some "r9", "Маркетинг"⟩) 50
          (send_async_request RegState.empty "r9" "niche" 0 true).2).2
        "r9" 700).1 :=
  c10_failed_dispatch_still_deliverable RegState.empty "r9" "Маркетинг" 0 50 700
    (by decide) (by decide)

end InnokentiyBot
